import Mathlib

/-!
Shallow embedding of the interview orchestration engine:
`InterviewController.sendMessage` and its helpers (`shouldEndInterview`,
`getNextPhase`), the moderation analyzer and moderation response generator
from `OllamaService`, the planner-decision fallback of `makeAgenticDecision`,
and the provider selection of `LLMService`.

Timestamps are modelled as integer milliseconds since the epoch; the several
`Date.now()` reads inside one turn are passed explicitly in the `TurnOracle`
(`nowMs` for `const now = new Date()`, `tGovMs` for the governor's elapsed-time
read, `tEndMs` for the read inside `shouldEndInterview`).  The source compares
`elapsedMinutes = elapsedMs / (1000 * 60)` against minute thresholds; over the
exact rationals `elapsedMs / 60000 ≥ k` is equivalent to
`elapsedMs ≥ k * 60000`, so the embedding states those comparisons in
milliseconds, exactly.
All language-model calls are nondeterministic inputs carried by `TurnOracle`.
-/

namespace InterviewApp

/-- `SessionState['phase']` from `InterviewTypes.ts`. -/
inductive Phase
  | setup | warmup | behavioral | technical | system_design | product | wrap_up | completed
deriving DecidableEq, Repr

/-- Message role. -/
inductive MsgRole
  | user | assistant | system
deriving DecidableEq, Repr

/-- Interview mode from `SessionConfig`. -/
inductive Mode
  | practice | mock
deriving DecidableEq, Repr

/-- A transcript entry (`Message` plus the metadata written at line 321-330). -/
structure Msg where
  role : MsgRole
  content : String
  timestamp : ℤ
  questionType : Option Phase := none
  isFollowUp : Option Bool := none
  evaluationScore : Option Int := none
deriving DecidableEq, Repr

/-- The configuration fields that the control flow reads. -/
structure SessionConfig where
  role : String
  seniority : String
  interviewTypes : List String
  company : String
  durationMinutes : ℕ
  questionFamiliarity : String
  interviewMode : Mode
deriving DecidableEq, Repr

/-- `SessionState` from `InterviewTypes.ts` (times in ms). -/
structure SessionState where
  phase : Phase
  currentQuestionIndex : ℕ
  questionsAsked : ℕ
  startTime : Option ℤ
  endTime : Option ℤ := none
  lastActivity : ℤ
  isActive : Bool
deriving DecidableEq, Repr

/-- An entry of `session.agenticDecisions`.  The `decision` field is an
`Option` because a planner payload that parses but lacks the `decision`
property stores JS `undefined` there. -/
structure DecisionRec where
  timestamp : ℤ
  decision : Option String
  reasoning : Option String
  context : Option String
deriving DecidableEq, Repr

/-- Moderation severity. -/
inductive Severity
  | low | medium | high
deriving DecidableEq, Repr

/-- Result of `analyzeResponseApproppriateness`. -/
structure ContentAnalysis where
  isAppropriate : Bool
  isOnTopic : Bool
  containsProfanity : Bool
  severity : Severity
  reason : String
deriving DecidableEq, Repr

/-- Result of `generateModerationResponse`. -/
structure ModerationResponse where
  message : String
  shouldTerminate : Bool
deriving DecidableEq, Repr

/-- The value stored in `session.evaluation`: either the JSON-parsed payload
of `generateEvaluation` (abstracted by its text) or the hard-coded fallback
object of lines 353-361. -/
inductive EvaluationVal
  | parsed (payload : String)
  | fallbackEval
deriving DecidableEq, Repr

/-- Parse result of `generatePracticeFeedback`'s JSON payload. -/
structure PracticeEval where
  score : Int
  feedback : String
  sampleAnswers : List String
  improvements : List String
  nextQuestion : String
deriving DecidableEq, Repr

/-- The raw planner payload consumed by `makeAgenticDecision`:
either text on which `JSON.parse` throws, or a parsed object whose three
fields may each be absent (JS `undefined`). -/
inductive PlannerOutput
  | malformed (raw : String)
  | wellFormed (decision reasoning ctx : Option String)
deriving DecidableEq, Repr

/-- The persisted session record. -/
structure Session where
  config : SessionConfig
  state : SessionState
  messages : List Msg
  agenticDecisions : List DecisionRec
  evaluation : Option EvaluationVal
deriving DecidableEq, Repr

/-! ## Moderation analyzer (`OllamaService.analyzeResponseApproppriateness`) -/

/-- JS word character for the `\b` boundary: `[A-Za-z0-9_]`. -/
def isWordChar (c : Char) : Bool := c.isAlphanum || c == '_'

/-- Match the remaining letters of a profanity pattern, each optionally
preceded by a literal `*` (the `\*?` in the source regexes), case-insensitively. -/
def matchStarTail : List Char → List Char → Bool
  | [], _ => true
  | p :: ps, '*' :: c :: cs => c.toLower == p && matchStarTail ps cs
  | p :: ps, c :: cs => c.toLower == p && matchStarTail ps cs
  | _ :: _, [] => false

/-- Match a whole profanity pattern starting at the head of `s`. -/
def matchPatternAt (pat : List Char) (s : List Char) : Bool :=
  match pat, s with
  | [], _ => true
  | p :: ps, c :: cs => c.toLower == p && matchStarTail ps cs
  | _ :: _, [] => false

/-- Search `s` for the pattern at any position whose predecessor is not a
word character (the `\b` before the first letter); `prevWord` carries whether
the previous character was a word character. -/
def patternSearch (pat : List Char) : Bool → List Char → Bool
  | _, [] => false
  | prevWord, c :: cs =>
      (!prevWord && matchPatternAt pat (c :: cs)) || patternSearch pat (isWordChar c) cs

/-- The five profanity patterns of the source, as their letter sequences. -/
def profanityWords : List (List Char) :=
  [['f','u','c','k'], ['s','h','i','t'], ['b','i','t','c','h'],
   ['a','s','s','h','o','l','e'], ['d','a','m','n']]

/-- `profanityPatterns.some(pattern => pattern.test(response))`. -/
def hasProfanity (response : String) : Bool :=
  profanityWords.any (fun w => patternSearch w false response.data)

/-- `/[a-zA-Z]{3,}/.test s`: three consecutive ASCII letters somewhere. -/
def letterRunFrom : Nat → List Char → Bool
  | _, [] => false
  | run, c :: cs =>
      if c.isAlpha then run + 1 ≥ 3 || letterRunFrom (run + 1) cs
      else letterRunFrom 0 cs

def hasLetterRun3 (s : String) : Bool := letterRunFrom 0 s.data

/-- Whether `pat` is a prefix of `s` (over character lists). -/
def isPrefixList : List Char → List Char → Bool
  | [], _ => true
  | _ :: _, [] => false
  | p :: ps, c :: cs => p == c && isPrefixList ps cs

/-- Whether `pat` occurs as a contiguous sublist of `s`. -/
def containsList (pat : List Char) : List Char → Bool
  | [] => pat.isEmpty
  | c :: cs => isPrefixList pat (c :: cs) || containsList pat cs

/-- `s.includes(pat)`. -/
def containsSub (s pat : String) : Bool := containsList pat.data s.data

/-- JS `String.prototype.trim`: strip whitespace from both ends. -/
def trimChars (s : List Char) : List Char :=
  ((s.dropWhile Char.isWhitespace).reverse.dropWhile Char.isWhitespace).reverse

/-- `isVeryShortNonsense` with the source's operator precedence: the JS `&&`
binds tighter than `||`, so the length/letter guards apply only to the
`jklsdf` disjunct. -/
def isVeryShortNonsense (response : String) : Bool :=
  (decide ((trimChars response.data).length < 10) && !hasLetterRun3 response
      && containsSub response "jklsdf")
    || containsSub response "asdf" || containsSub response "qwerty"

/-- `OllamaService.analyzeResponseApproppriateness` (the extra question /
warning-count / history arguments are not read by the implementation). -/
def analyzeResponseApproppriateness (response : String) : ContentAnalysis :=
  if hasProfanity response then
    { isAppropriate := false, isOnTopic := true, containsProfanity := true,
      severity := .high, reason := "Contains inappropriate language" }
  else if isVeryShortNonsense response then
    { isAppropriate := true, isOnTopic := false, containsProfanity := false,
      severity := .low, reason := "Response appears to be random characters" }
  else
    { isAppropriate := true, isOnTopic := true, containsProfanity := false,
      severity := .low, reason := "Response appears appropriate" }

/-! ## Moderation response (`OllamaService.generateModerationResponse`) -/

def terminationMessage : String :=
  "I need to end our interview session here. Professional communication is required for interview practice. Thank you for your time."

def warningMessage (warningCount : ℕ) (question : String) : String :=
  "I need you to maintain professional communication during our interview. This is your "
    ++ (if warningCount == 1 then "first" else "second")
    ++ " warning. Let\x27s continue professionally. \n\nLet me repeat the question: "
    ++ question

def redirectMessage (question : String) : String :=
  "I notice your response isn\x27t directly addressing the question I asked. Let me help redirect our conversation.\n\nThe question was: "
    ++ question
    ++ "\n\nCould you please provide a response that specifically addresses this question about your professional experience?"

def generateModerationResponse (analysis : ContentAnalysis) (warningCount : ℕ)
    (question : String) : ModerationResponse :=
  if analysis.containsProfanity || analysis.severity == Severity.high then
    let wc := warningCount + 1
    if wc ≥ 2 then
      { message := terminationMessage, shouldTerminate := true }
    else
      { message := warningMessage wc question, shouldTerminate := false }
  else if !analysis.isOnTopic then
    { message := redirectMessage question, shouldTerminate := false }
  else
    { message := "", shouldTerminate := false }

/-! ## Planner decision (`makeAgenticDecision`) -/

/-- `makeAgenticDecision`: `JSON.parse` of the planner's raw response, with
the catch-block fallback of lines 230-238. -/
def makeAgenticDecision (output : PlannerOutput) (ts : ℤ) : DecisionRec :=
  match output with
  | .wellFormed d r c => { timestamp := ts, decision := d, reasoning := r, context := c }
  | .malformed _ =>
      { timestamp := ts, decision := some "MOVE_NEXT",
        reasoning := some "Default action due to parsing error",
        context := some "Failed to parse AI decision response" }

/-! ## Controller helpers -/

/-- The ordered phase list of `getNextPhase`. -/
def interviewPhases : List Phase :=
  [.warmup, .behavioral, .technical, .system_design, .product, .wrap_up]

/-- `InterviewController.getNextPhase`: JS `indexOf` yields `-1` when the
phase is absent, and `phases[currentIndex + 1] || 'wrap_up'` falls back to
`'wrap_up'` only when the indexing itself is out of range. -/
def getNextPhase (currentPhase : Phase) : Phase :=
  let currentIndex : ℤ :=
    match interviewPhases.findIdx? (fun p => p == currentPhase) with
    | some i => (i : ℤ)
    | none => -1
  ((interviewPhases.get? (currentIndex + 1).toNat).getD .wrap_up)

/-- `Math.max(6, Math.min(12, Math.floor(durationMinutes / 4)))`. -/
def maxQuestionsFor (durationMinutes : ℕ) : ℕ :=
  max 6 (min 12 (durationMinutes / 4))

/-- Elapsed milliseconds since `startTime` at clock reading `tNowMs`, with the
source's `0` default when `startTime` is unset (the source divides this by
`1000 * 60` to get `elapsedMinutes`; comparisons below stay in ms, exactly). -/
def elapsedMsAt (startTime : Option ℤ) (tNowMs : ℤ) : ℤ :=
  match startTime with
  | some t0 => tNowMs - t0
  | none => 0

/-- `InterviewController.shouldEndInterview`.  The source's
`elapsedMinutes >= durationMinutes` is stated as
`elapsedMs ≥ durationMinutes * (1000 * 60)`, its exact equivalent. -/
def shouldEndInterview (state : SessionState) (durationMinutes : ℕ) (tNowMs : ℤ) : Bool :=
  match state.startTime with
  | none => false
  | some t0 =>
      decide (tNowMs - t0 ≥ (durationMinutes : ℤ) * (1000 * 60))
        || decide (state.questionsAsked ≥ maxQuestionsFor durationMinutes)
        || decide (state.phase = Phase.completed)

/-- Last assistant message's content, with the `|| 'Previous question'`
fallback (which also fires on an empty content string). -/
def lastAssistantQuestion (msgs : List Msg) : String :=
  match (msgs.filter (fun m => m.role == MsgRole.assistant)).getLast? with
  | some m => if m.content = "" then "Previous question" else m.content
  | none => "Previous question"

/-- The warning count: `agenticDecisions.filter(d => d.decision === 'MODERATE').length`. -/
def moderateCount (log : List DecisionRec) : ℕ :=
  (log.filter (fun d => d.decision == some "MODERATE")).length

/-! ## One turn of `InterviewController.sendMessage` -/

/-- The language-model responses and clock readings consumed by one turn. -/
structure TurnOracle where
  planner : PlannerOutput
  genText : String
  practiceFeedback : Option PracticeEval
  evalParsed : Option String
  nowMs : ℤ
  tGovMs : ℤ
  tEndMs : ℤ
deriving DecidableEq, Repr

/-- The session fields as they stand after line 330 (user and assistant turns
appended, moderation or planning applied), before the end-of-interview check. -/
structure TurnMid where
  state : SessionState
  messages : List Msg
  log : List DecisionRec
  aiResponse : String
  shouldEndSession : Bool
deriving DecidableEq, Repr

/-- The practice-mode response template of lines 242-258 (array slots absent
from the payload print as JS `undefined`). -/
def formatPracticeResponse (p : PracticeEval) : String :=
  "Your Score: " ++ toString p.score ++ "/5\n\nFeedback: " ++ p.feedback
    ++ "\n\nSample Answers:\n1. " ++ p.sampleAnswers.getD 0 "undefined"
    ++ "\n2. " ++ p.sampleAnswers.getD 1 "undefined"
    ++ "\n3. " ++ p.sampleAnswers.getD 2 "undefined"
    ++ "\n4. " ++ p.sampleAnswers.getD 3 "undefined"
    ++ "\n5. " ++ p.sampleAnswers.getD 4 "undefined"
    ++ "\n\nImprovements:\n• " ++ p.improvements.getD 0 "undefined"
    ++ "\n• " ++ p.improvements.getD 1 "undefined"
    ++ "\n• " ++ p.improvements.getD 2 "undefined"
    ++ "\n\nNext Question: " ++ p.nextQuestion

/-- Lines 281-286 of `sendMessage`: the wrap-up admissibility thresholds.
`minTimeElapsed = durationMinutes * 0.8` minutes compared against
`elapsedMs / 60000` is stated exactly as `elapsedMs ≥ durationMinutes * 48000`
(`0.8 * 60000 = 48000`); `minQuestions = Math.max(3, Math.ceil(durationMinutes / 5))`
and the ceiling of an integer division by 5 is `(n + 4) / 5`. -/
def canWrapUp (durationMinutes questionsAsked : ℕ) (elapsedMs : ℤ) : Prop :=
  elapsedMs ≥ (durationMinutes : ℤ) * 48000
    ∧ questionsAsked ≥ max 3 ((durationMinutes + 4) / 5)

instance (d qa : ℕ) (e : ℤ) : Decidable (canWrapUp d qa e) := by
  unfold canWrapUp; infer_instance

/-- Lines 142-330 of `sendMessage`: append the user turn, bump the counters,
run moderation, then the practice/mock branch, then append the assistant turn.
The tuple per branch is `(state, log, aiResponse, shouldEndSession, score)`. -/
def turnBody (cfg : SessionConfig) (st : SessionState) (msgs : List Msg)
    (log : List DecisionRec) (message : String) (o : TurnOracle) : TurnMid :=
  let msgs1 := msgs ++ [{ role := .user, content := message, timestamp := o.nowMs }]
  let st1 := { st with lastActivity := o.nowMs, questionsAsked := st.questionsAsked + 1 }
  let lastQuestion := lastAssistantQuestion msgs1
  let warningCount := moderateCount log
  let analysis := analyzeResponseApproppriateness message
  let step : SessionState × List DecisionRec × String × Bool × Option Int :=
    if !analysis.isAppropriate || analysis.containsProfanity then
      let modResp := generateModerationResponse analysis warningCount lastQuestion
      if modResp.shouldTerminate then
        ({ st1 with isActive := false, endTime := some o.nowMs, phase := .completed },
         log ++ [{ timestamp := o.nowMs, decision := some "TERMINATE",
                   reasoning := some "Session terminated due to inappropriate behavior",
                   context := some analysis.reason }],
         modResp.message, true, none)
      else if modResp.message != "" then
        (st1,
         log ++ [{ timestamp := o.nowMs, decision := some "MODERATE",
                   reasoning := some "Inappropriate or off-topic response detected",
                   context := some analysis.reason }],
         modResp.message, false, none)
      else
        (st1, log, "", false, none)
    else
      match cfg.interviewMode with
      | .practice =>
          match o.practiceFeedback with
          | some p => (st1, log, formatPracticeResponse p, false, some p.score)
          | none => (st1, log, "Great answer! Let me ask you the next question...", false, none)
      | .mock =>
          let decision := makeAgenticDecision o.planner o.nowMs
          let log2 := log ++ [decision]
          let elapsedMs : ℤ := elapsedMsAt st.startTime o.tGovMs
          if decision.decision == some "WRAP_UP" then
            if canWrapUp cfg.durationMinutes st1.questionsAsked elapsedMs then
              ({ st1 with phase := .wrap_up }, log2, o.genText, true, none)
            else
              (st1, log2, o.genText, false, none)
          else if decision.decision == some "CHANGE_PHASE" then
            ({ st1 with phase := getNextPhase st1.phase }, log2, o.genText, false, none)
          else
            (st1, log2, o.genText, false, none)
  { state := step.1,
    messages := msgs1 ++ [{ role := .assistant, content := step.2.2.1, timestamp := o.nowMs,
                            questionType := some step.1.phase,
                            isFollowUp := some (cfg.interviewMode == Mode.practice),
                            evaluationScore := step.2.2.2.2 }],
    log := step.2.1,
    aiResponse := step.2.2.1,
    shouldEndSession := step.2.2.2.1 }

/-- Lines 332-364 of `sendMessage`: the end-of-interview check, freezing the
session and generating the evaluation when the session was not already marked
for ending earlier in the turn. -/
def finalizeTurn (cfg : SessionConfig) (evaluationPre : Option EvaluationVal)
    (mid : TurnMid) (o : TurnOracle) : Session :=
  let doEnd := mid.shouldEndSession || shouldEndInterview mid.state cfg.durationMinutes o.tEndMs
  if doEnd then
    { config := cfg,
      state := { mid.state with isActive := false, endTime := some o.nowMs, phase := .completed },
      messages := mid.messages,
      agenticDecisions := mid.log,
      evaluation :=
        if mid.shouldEndSession then evaluationPre
        else some (match o.evalParsed with
                   | some payload => EvaluationVal.parsed payload
                   | none => EvaluationVal.fallbackEval) }
  else
    { config := cfg, state := mid.state, messages := mid.messages,
      agenticDecisions := mid.log, evaluation := evaluationPre }

/-- The body of `sendMessage` for an active session, as one pure function of
the pre-turn record, the inbound text and the oracle. -/
def sendMessageCore (s : Session) (message : String) (o : TurnOracle) : Session :=
  finalizeTurn s.config s.evaluation
    (turnBody s.config s.state s.messages s.agenticDecisions message o) o

/-- `sendMessage` including its request guards: an empty message and an
inactive session are rejected before any state mutation. -/
def sendMessage (s : Session) (message : String) (o : TurnOracle) : Option Session :=
  if message = "" then none
  else if s.state.isActive = false then none
  else some (sendMessageCore s message o)

/-! ## Provider selection (`LLMService`) -/

inductive Provider
  | bedrock | ollama
deriving DecidableEq, Repr

/-- The only mutable selection state of `LLMService`: the cached active
provider chosen once at construction. -/
structure LLMServiceState where
  activeService : Option Provider
deriving DecidableEq, Repr

/-- `LLMService.initializeServices`, run once from the constructor.
`bedrockReachable` / `ollamaReachable` abstract the startup `testConnection`
probes (a probe that throws behaves like an unreachable provider). -/
def initializeServices (useBedrock bedrockReachable ollamaReachable : Bool) :
    LLMServiceState :=
  if useBedrock && bedrockReachable then { activeService := some Provider.bedrock }
  else if ollamaReachable then { activeService := some Provider.ollama }
  else { activeService := none }

/-- `LLMService.getActiveServiceName`. -/
def getActiveServiceName (s : LLMServiceState) : String :=
  match s.activeService with
  | some Provider.bedrock => "AWS Bedrock"
  | some Provider.ollama => "Ollama"
  | none => "None"

/-- A post-initialization façade call.  The reachability flags record what the
providers' health would be at call time: no method body reads them to revise
the selection. -/
inductive FacadeOp
  | testConnection (bedrockReachableNow ollamaReachableNow : Bool)
  | makeDecision
  | generateContent
  | generateEval
  | generateFeedback
  | healthCheck (bedrockReachableNow ollamaReachableNow : Bool)
deriving DecidableEq, Repr

/-- State effect of each `LLMService` method after construction: every method
only awaits `initPromise` and reads `activeService` via `getService`; none of
them assigns `primaryService`, `fallbackService` or `activeService`. -/
def facadeStep (s : LLMServiceState) : FacadeOp → LLMServiceState
  | .testConnection _ _ => s
  | .makeDecision => s
  | .generateContent => s
  | .generateEval => s
  | .generateFeedback => s
  | .healthCheck _ _ => s

/-! ## Concrete fixtures used by witnesses and counterexamples -/

def mockConfig30 : SessionConfig :=
  { role := "Software Engineer", seniority := "Senior", interviewTypes := ["Behavioral"],
    company := "Generic", durationMinutes := 30, questionFamiliarity := "mixed",
    interviewMode := Mode.mock }

def baseQuestion : Msg :=
  { role := .assistant, content := "Tell me about a project.", timestamp := 0 }

def stateAt (phase : Phase) (qa : ℕ) : SessionState :=
  { phase := phase, currentQuestionIndex := 0, questionsAsked := qa,
    startTime := some 0, endTime := none, lastActivity := 0, isActive := true }

def sessionAt (phase : Phase) (qa : ℕ) (log : List DecisionRec) : Session :=
  { config := mockConfig30, state := stateAt phase qa,
    messages := [baseQuestion], agenticDecisions := log, evaluation := none }

def moveNextOracle (t : ℤ) : TurnOracle :=
  { planner := .wellFormed (some "MOVE_NEXT") (some "r") (some "c"),
    genText := "NEXTQ", practiceFeedback := none, evalParsed := some "EVAL",
    nowMs := t, tGovMs := t, tEndMs := t }

def wrapUpOracle (t : ℤ) : TurnOracle :=
  { moveNextOracle t with planner := .wellFormed (some "WRAP_UP") (some "r") (some "c") }

def priorModerate : DecisionRec :=
  { timestamp := 0, decision := some "MODERATE", reasoning := some "w", context := some "x" }

/-! ## Helper lemmas -/

/-- The analysis returned on the profanity branch. -/
def profanityAnalysis : ContentAnalysis :=
  { isAppropriate := false, isOnTopic := true, containsProfanity := true,
    severity := .high, reason := "Contains inappropriate language" }

/-- The analysis returned on the short-nonsense branch. -/
def nonsenseAnalysis : ContentAnalysis :=
  { isAppropriate := true, isOnTopic := false, containsProfanity := false,
    severity := .low, reason := "Response appears to be random characters" }

/-- A classification with profanity or high severity can only come from the
profanity branch of the analyzer. -/
theorem analysis_profanity_cases (m : String)
    (h : (analyzeResponseApproppriateness m).containsProfanity = true
         ∨ (analyzeResponseApproppriateness m).severity = Severity.high) :
    analyzeResponseApproppriateness m = profanityAnalysis := by
  unfold analyzeResponseApproppriateness profanityAnalysis at *
  by_cases hp : hasProfanity m
  · simp [hp]
  · by_cases hn : isVeryShortNonsense m <;>
      rcases h with h | h <;> simp [hp, hn] at h

/-- A classification that is off-topic can only come from the short-nonsense
branch of the analyzer, which marks the turn as appropriate and not profane. -/
theorem analysis_offTopic_cases (m : String)
    (h : (analyzeResponseApproppriateness m).isOnTopic = false) :
    analyzeResponseApproppriateness m = nonsenseAnalysis := by
  unfold analyzeResponseApproppriateness nonsenseAnalysis at *
  by_cases hp : hasProfanity m
  · simp [hp] at h
  · by_cases hn : isVeryShortNonsense m
    · simp [hp, hn]
    · simp [hp, hn] at h

/-- No façade method after construction modifies the cached selection. -/
theorem facadeStep_preserves (s : LLMServiceState) (op : FacadeOp) :
    facadeStep s op = s := by
  cases op <;> rfl

theorem foldl_facadeStep (ops : List FacadeOp) (s : LLMServiceState) :
    ops.foldl facadeStep s = s := by
  induction ops generalizing s with
  | nil => rfl
  | cons op ops ih => rw [List.foldl_cons, facadeStep_preserves, ih]

/-- Unfolding of the hard-termination rule when `startTime` is set. -/
theorem shouldEndInterview_iff (st : SessionState) (d : ℕ) (t t0 : ℤ)
    (h : st.startTime = some t0) :
    shouldEndInterview st d t = true ↔
      t - t0 ≥ (d : ℤ) * (1000 * 60)
        ∨ st.questionsAsked ≥ maxQuestionsFor d
        ∨ st.phase = Phase.completed := by
  simp [shouldEndInterview, h, or_assoc]

/-- When the end-of-interview check fires, the session is frozen. -/
theorem finalizeTurn_frozen (cfg : SessionConfig) (evalPre : Option EvaluationVal)
    (mid : TurnMid) (o : TurnOracle)
    (h : mid.shouldEndSession = true
         ∨ shouldEndInterview mid.state cfg.durationMinutes o.tEndMs = true) :
    (finalizeTurn cfg evalPre mid o).state.isActive = false
    ∧ (finalizeTurn cfg evalPre mid o).state.endTime = some o.nowMs
    ∧ (finalizeTurn cfg evalPre mid o).state.phase = Phase.completed := by
  have hd : (mid.shouldEndSession
      || shouldEndInterview mid.state cfg.durationMinutes o.tEndMs) = true := by
    rcases h with h | h <;> simp [h]
  simp [finalizeTurn, hd]

/-- When the end-of-interview check does not fire, the turn's intermediate
record is persisted unchanged. -/
theorem finalizeTurn_skip (cfg : SessionConfig) (evalPre : Option EvaluationVal)
    (mid : TurnMid) (o : TurnOracle)
    (h1 : mid.shouldEndSession = false)
    (h2 : shouldEndInterview mid.state cfg.durationMinutes o.tEndMs = false) :
    finalizeTurn cfg evalPre mid o =
      { config := cfg, state := mid.state, messages := mid.messages,
        agenticDecisions := mid.log, evaluation := evalPre } := by
  simp [finalizeTurn, h1, h2]

/-- A warning message is never the empty string, so the `MODERATE` branch's
truthiness test on it always passes. -/
theorem warningMessage_ne_empty (wc : ℕ) (q : String) : warningMessage wc q ≠ "" := by
  intro hcontra
  have := congrArg String.data hcontra
  simp [warningMessage, String.data_append] at this

/-- The turn when moderation terminates: profane classification and at least
one prior `MODERATE` entry. -/
theorem turnBody_terminate (cfg : SessionConfig) (st : SessionState) (msgs : List Msg)
    (log : List DecisionRec) (m : String) (o : TurnOracle)
    (ha : analyzeResponseApproppriateness m = profanityAnalysis)
    (hw : 1 ≤ moderateCount log) :
    turnBody cfg st msgs log m o =
      { state :=
          { st with
            lastActivity := o.nowMs, questionsAsked := st.questionsAsked + 1,
            isActive := false, endTime := some o.nowMs, phase := Phase.completed },
        messages := msgs ++ [{ role := .user, content := m, timestamp := o.nowMs }]
                    ++ [{ role := .assistant, content := terminationMessage, timestamp := o.nowMs,
                          questionType := some Phase.completed,
                          isFollowUp := some (cfg.interviewMode == Mode.practice),
                          evaluationScore := none }],
        log := log ++ [{ timestamp := o.nowMs, decision := some "TERMINATE",
                         reasoning := some "Session terminated due to inappropriate behavior",
                         context := some "Contains inappropriate language" }],
        aiResponse := terminationMessage,
        shouldEndSession := true } := by
  have h2 : 2 ≤ moderateCount log + 1 := by omega
  simp [turnBody, ha, profanityAnalysis, generateModerationResponse, h2, List.append_assoc]

/-- The turn when moderation warns: profane classification with no prior
`MODERATE` entry. -/
theorem turnBody_warn (cfg : SessionConfig) (st : SessionState) (msgs : List Msg)
    (log : List DecisionRec) (m : String) (o : TurnOracle)
    (ha : analyzeResponseApproppriateness m = profanityAnalysis)
    (hw : moderateCount log = 0) :
    turnBody cfg st msgs log m o =
      { state :=
          { st with
            lastActivity := o.nowMs, questionsAsked := st.questionsAsked + 1 },
        messages := msgs ++ [{ role := .user, content := m, timestamp := o.nowMs }]
                    ++ [{ role := .assistant,
                          content := warningMessage 1 (lastAssistantQuestion
                            (msgs ++ [{ role := .user, content := m, timestamp := o.nowMs }])),
                          timestamp := o.nowMs,
                          questionType := some st.phase,
                          isFollowUp := some (cfg.interviewMode == Mode.practice),
                          evaluationScore := none }],
        log := log ++ [{ timestamp := o.nowMs, decision := some "MODERATE",
                         reasoning := some "Inappropriate or off-topic response detected",
                         context := some "Contains inappropriate language" }],
        aiResponse := warningMessage 1 (lastAssistantQuestion
          (msgs ++ [{ role := .user, content := m, timestamp := o.nowMs }])),
        shouldEndSession := false } := by
  simp [turnBody, ha, profanityAnalysis, generateModerationResponse, hw,
    warningMessage_ne_empty, List.append_assoc]

/-- A mock turn whose resolved planner action is neither `WRAP_UP` nor
`CHANGE_PHASE` passes through: the decision is logged verbatim and the state
only gets the step-1 updates. -/
theorem turnBody_mock_default (cfg : SessionConfig) (st : SessionState) (msgs : List Msg)
    (log : List DecisionRec) (m : String) (o : TurnOracle)
    (hmode : cfg.interviewMode = Mode.mock)
    (hApp : (analyzeResponseApproppriateness m).isAppropriate = true)
    (hProf : (analyzeResponseApproppriateness m).containsProfanity = false)
    (hW : (makeAgenticDecision o.planner o.nowMs).decision ≠ some "WRAP_UP")
    (hC : (makeAgenticDecision o.planner o.nowMs).decision ≠ some "CHANGE_PHASE") :
    turnBody cfg st msgs log m o =
      { state :=
          { st with
            lastActivity := o.nowMs, questionsAsked := st.questionsAsked + 1 },
        messages := msgs ++ [{ role := .user, content := m, timestamp := o.nowMs }]
                    ++ [{ role := .assistant, content := o.genText, timestamp := o.nowMs,
                          questionType := some st.phase,
                          isFollowUp := some false,
                          evaluationScore := none }],
        log := log ++ [makeAgenticDecision o.planner o.nowMs],
        aiResponse := o.genText,
        shouldEndSession := false } := by
  simp [turnBody, hmode, hApp, hProf, hW, hC, List.append_assoc]

/-- A mock turn with a `WRAP_UP` decision that meets both thresholds is
honored: phase moves to `wrap_up` and the session is marked for ending. -/
theorem turnBody_wrap_honored (cfg : SessionConfig) (st : SessionState) (msgs : List Msg)
    (log : List DecisionRec) (m : String) (o : TurnOracle)
    (hmode : cfg.interviewMode = Mode.mock)
    (hApp : (analyzeResponseApproppriateness m).isAppropriate = true)
    (hProf : (analyzeResponseApproppriateness m).containsProfanity = false)
    (hW : (makeAgenticDecision o.planner o.nowMs).decision = some "WRAP_UP")
    (hcan : canWrapUp cfg.durationMinutes (st.questionsAsked + 1)
      (elapsedMsAt st.startTime o.tGovMs)) :
    turnBody cfg st msgs log m o =
      { state :=
          { st with
            lastActivity := o.nowMs, questionsAsked := st.questionsAsked + 1,
            phase := Phase.wrap_up },
        messages := msgs ++ [{ role := .user, content := m, timestamp := o.nowMs }]
                    ++ [{ role := .assistant, content := o.genText, timestamp := o.nowMs,
                          questionType := some Phase.wrap_up,
                          isFollowUp := some false,
                          evaluationScore := none }],
        log := log ++ [makeAgenticDecision o.planner o.nowMs],
        aiResponse := o.genText,
        shouldEndSession := true } := by
  simp [turnBody, hmode, hApp, hProf, hW, hcan, List.append_assoc]

/-- A mock turn with a `WRAP_UP` decision that misses a threshold is demoted:
the phase is untouched and the session is not marked for ending. -/
theorem turnBody_wrap_demoted (cfg : SessionConfig) (st : SessionState) (msgs : List Msg)
    (log : List DecisionRec) (m : String) (o : TurnOracle)
    (hmode : cfg.interviewMode = Mode.mock)
    (hApp : (analyzeResponseApproppriateness m).isAppropriate = true)
    (hProf : (analyzeResponseApproppriateness m).containsProfanity = false)
    (hW : (makeAgenticDecision o.planner o.nowMs).decision = some "WRAP_UP")
    (hcan : ¬ canWrapUp cfg.durationMinutes (st.questionsAsked + 1)
      (elapsedMsAt st.startTime o.tGovMs)) :
    turnBody cfg st msgs log m o =
      { state :=
          { st with
            lastActivity := o.nowMs, questionsAsked := st.questionsAsked + 1 },
        messages := msgs ++ [{ role := .user, content := m, timestamp := o.nowMs }]
                    ++ [{ role := .assistant, content := o.genText, timestamp := o.nowMs,
                          questionType := some st.phase,
                          isFollowUp := some false,
                          evaluationScore := none }],
        log := log ++ [makeAgenticDecision o.planner o.nowMs],
        aiResponse := o.genText,
        shouldEndSession := false } := by
  simp [turnBody, hmode, hApp, hProf, hW, hcan, List.append_assoc]

/-- A mock turn with a `CHANGE_PHASE` decision advances the phase via
`getNextPhase`. -/
theorem turnBody_changePhase (cfg : SessionConfig) (st : SessionState) (msgs : List Msg)
    (log : List DecisionRec) (m : String) (o : TurnOracle)
    (hmode : cfg.interviewMode = Mode.mock)
    (hApp : (analyzeResponseApproppriateness m).isAppropriate = true)
    (hProf : (analyzeResponseApproppriateness m).containsProfanity = false)
    (hC : (makeAgenticDecision o.planner o.nowMs).decision = some "CHANGE_PHASE") :
    turnBody cfg st msgs log m o =
      { state :=
          { st with
            lastActivity := o.nowMs, questionsAsked := st.questionsAsked + 1,
            phase := getNextPhase st.phase },
        messages := msgs ++ [{ role := .user, content := m, timestamp := o.nowMs }]
                    ++ [{ role := .assistant, content := o.genText, timestamp := o.nowMs,
                          questionType := some (getNextPhase st.phase),
                          isFollowUp := some false,
                          evaluationScore := none }],
        log := log ++ [makeAgenticDecision o.planner o.nowMs],
        aiResponse := o.genText,
        shouldEndSession := false } := by
  simp [turnBody, hmode, hApp, hProf, hC, List.append_assoc]

/-- Every moderation-passing mock turn appends exactly the planner's decision
record to the decision log, whatever the decision was. -/
theorem turnBody_mock_log (cfg : SessionConfig) (st : SessionState) (msgs : List Msg)
    (log : List DecisionRec) (m : String) (o : TurnOracle)
    (hmode : cfg.interviewMode = Mode.mock)
    (hApp : (analyzeResponseApproppriateness m).isAppropriate = true)
    (hProf : (analyzeResponseApproppriateness m).containsProfanity = false) :
    (turnBody cfg st msgs log m o).log = log ++ [makeAgenticDecision o.planner o.nowMs] := by
  by_cases hW : (makeAgenticDecision o.planner o.nowMs).decision = some "WRAP_UP"
  · by_cases hcan : canWrapUp cfg.durationMinutes (st.questionsAsked + 1)
        (elapsedMsAt st.startTime o.tGovMs)
    · rw [turnBody_wrap_honored cfg st msgs log m o hmode hApp hProf hW hcan]
    · rw [turnBody_wrap_demoted cfg st msgs log m o hmode hApp hProf hW hcan]
  · by_cases hC : (makeAgenticDecision o.planner o.nowMs).decision = some "CHANGE_PHASE"
    · rw [turnBody_changePhase cfg st msgs log m o hmode hApp hProf hC]
    · rw [turnBody_mock_default cfg st msgs log m o hmode hApp hProf hW hC]

/-- C6: `getNextPhase` steps through the fixed list, returns `wrap_up` at
`wrap_up`, but returns `warmup` (not `wrap_up`) for phases absent from the
list (`setup`, `completed`), because the JS `indexOf` of an absent phase is
`-1` and `phases[0]` is a truthy string. -/
theorem C6_next_phase :
    getNextPhase .warmup = .behavioral
    ∧ getNextPhase .behavioral = .technical
    ∧ getNextPhase .technical = .system_design
    ∧ getNextPhase .system_design = .product
    ∧ getNextPhase .product = .wrap_up
    ∧ getNextPhase .wrap_up = .wrap_up
    ∧ getNextPhase .setup = .warmup
    ∧ getNextPhase .completed = .warmup := by
  decide

/-- C6 counterexample: on the not-found phase `completed`, `getNextPhase`
returns `warmup`, not `wrap_up` as claimed. -/
theorem C6_counterexample :
    getNextPhase Phase.completed = Phase.warmup ∧ Phase.warmup ≠ Phase.wrap_up := by
  decide

/-- C10: with `startTime` unset, `shouldEndInterview` returns `false`
regardless of the question count, the clock, or the phase. -/
theorem C10_no_start_no_termination (st : SessionState) (d : ℕ) (t : ℤ)
    (h : st.startTime = none) :
    shouldEndInterview st d t = false := by
  simp [shouldEndInterview, h]

theorem C10_no_start_no_termination_witness :
    shouldEndInterview
      { phase := Phase.completed, currentQuestionIndex := 0, questionsAsked := 100,
        startTime := none, endTime := none, lastActivity := 0, isActive := true }
      30 100000000 = false :=
  C10_no_start_no_termination _ 30 100000000 rfl

/-- C8: the provider selected at initialization (Bedrock when enabled and
reachable, otherwise Ollama when reachable) is never revised by any later
façade call: the selection state and the reported service name are constant
over every sequence of post-initialization operations, including operations
during which the primary has become reachable again. -/
theorem C8_provider_stability (useBedrock bUp oUp : Bool) (ops : List FacadeOp) :
    ops.foldl facadeStep (initializeServices useBedrock bUp oUp)
        = initializeServices useBedrock bUp oUp
    ∧ getActiveServiceName (ops.foldl facadeStep (initializeServices useBedrock bUp oUp))
        = getActiveServiceName (initializeServices useBedrock bUp oUp)
    ∧ (initializeServices true true oUp).activeService = some Provider.bedrock
    ∧ (initializeServices true false true).activeService = some Provider.ollama
    ∧ (initializeServices false bUp true).activeService = some Provider.ollama
    ∧ getActiveServiceName (ops.foldl facadeStep (initializeServices true false true))
        = "Ollama" := by
  refine ⟨foldl_facadeStep ops _, by rw [foldl_facadeStep], rfl, rfl, ?_, ?_⟩
  · cases bUp <;> rfl
  · rw [foldl_facadeStep]; rfl

/-- C1: with `durationMinutes = 30` the question cap is `7`; a mock turn whose
planner proposes `MOVE_NEXT`, on a moderation-passing message, freezes the
session (`isActive = false`, `endTime` set, `phase = completed`) when it is
the 7th user message; in general the orchestrator freezes the session after
any turn whose end-of-turn check fires, and with `startTime` set that check
is exactly `elapsed ≥ duration ∨ questionsAsked ≥ max 6 (min 12 (duration/4))
∨ phase = completed`. -/
theorem C1_hard_termination :
    maxQuestionsFor 30 = 7
    ∧ (∀ (s : Session) (m : String) (o : TurnOracle) (t0 : ℤ) (r c : Option String),
        s.config.interviewMode = Mode.mock →
        s.config.durationMinutes = 30 →
        s.state.startTime = some t0 →
        s.state.questionsAsked = 6 →
        (analyzeResponseApproppriateness m).isAppropriate = true →
        (analyzeResponseApproppriateness m).containsProfanity = false →
        o.planner = PlannerOutput.wellFormed (some "MOVE_NEXT") r c →
        (sendMessageCore s m o).state.isActive = false
          ∧ (sendMessageCore s m o).state.endTime = some o.nowMs
          ∧ (sendMessageCore s m o).state.phase = Phase.completed)
    ∧ (∀ (s : Session) (m : String) (o : TurnOracle),
        ((turnBody s.config s.state s.messages s.agenticDecisions m o).shouldEndSession = true
          ∨ shouldEndInterview (turnBody s.config s.state s.messages s.agenticDecisions m o).state
              s.config.durationMinutes o.tEndMs = true) →
        (sendMessageCore s m o).state.isActive = false
          ∧ (sendMessageCore s m o).state.endTime = some o.nowMs
          ∧ (sendMessageCore s m o).state.phase = Phase.completed)
    ∧ (∀ (st : SessionState) (d : ℕ) (t t0 : ℤ), st.startTime = some t0 →
        (shouldEndInterview st d t = true ↔
          t - t0 ≥ (d : ℤ) * (1000 * 60)
            ∨ st.questionsAsked ≥ maxQuestionsFor d
            ∨ st.phase = Phase.completed)) := by
  refine ⟨rfl, ?_, ?_, shouldEndInterview_iff⟩
  · intro s m o t0 r c hmode hdur hstart hqa hApp hProf hpl
    have hW : (makeAgenticDecision o.planner o.nowMs).decision ≠ some "WRAP_UP" := by
      rw [hpl]; simp [makeAgenticDecision]
    have hC : (makeAgenticDecision o.planner o.nowMs).decision ≠ some "CHANGE_PHASE" := by
      rw [hpl]; simp [makeAgenticDecision]
    have hmid := turnBody_mock_default s.config s.state s.messages s.agenticDecisions m o
      hmode hApp hProf hW hC
    unfold sendMessageCore
    apply finalizeTurn_frozen
    right
    rw [hmid, shouldEndInterview_iff _ _ _ t0 (by simpa using hstart)]
    right; left
    simp [hqa, hdur, maxQuestionsFor]
  · intro s m o h
    exact finalizeTurn_frozen s.config s.evaluation _ o h

theorem C1_hard_termination_witness :
    (sendMessageCore (sessionAt .behavioral 6 []) "I led the migration project."
        (moveNextOracle 600000)).state.isActive = false
    ∧ (sendMessageCore (sessionAt .behavioral 6 []) "I led the migration project."
        (moveNextOracle 600000)).state.phase = Phase.completed := by
  have h := C1_hard_termination.2.1 (sessionAt .behavioral 6 [])
    "I led the migration project." (moveNextOracle 600000) 0 (some "r") (some "c")
    rfl rfl rfl rfl (by decide) (by decide) rfl
  exact ⟨h.1, h.2.2⟩

theorem finalizeTurn_log (cfg : SessionConfig) (evalPre : Option EvaluationVal)
    (mid : TurnMid) (o : TurnOracle) :
    (finalizeTurn cfg evalPre mid o).agenticDecisions = mid.log := by
  simp only [finalizeTurn]
  split <;> rfl

theorem finalizeTurn_messages (cfg : SessionConfig) (evalPre : Option EvaluationVal)
    (mid : TurnMid) (o : TurnOracle) :
    (finalizeTurn cfg evalPre mid o).messages = mid.messages := by
  simp only [finalizeTurn]
  split <;> rfl

/-- C2: a turn classified with profanity or high severity terminates the
session when the decision log already holds a `MODERATE` entry — the session
is frozen, a `TERMINATE` entry is appended, and the result is independent of
the planner oracle (no planner call); with no prior `MODERATE` entry the turn
instead logs `MODERATE` and the assistant emits the warning message. -/
theorem C2_moderation_escalation (s : Session) (m : String) (o : TurnOracle)
    (hprof : (analyzeResponseApproppriateness m).containsProfanity = true
             ∨ (analyzeResponseApproppriateness m).severity = Severity.high) :
    (1 ≤ moderateCount s.agenticDecisions →
      (sendMessageCore s m o).state.isActive = false
      ∧ (sendMessageCore s m o).state.endTime = some o.nowMs
      ∧ (sendMessageCore s m o).state.phase = Phase.completed
      ∧ (sendMessageCore s m o).agenticDecisions
          = s.agenticDecisions
            ++ [{ timestamp := o.nowMs, decision := some "TERMINATE",
                  reasoning := some "Session terminated due to inappropriate behavior",
                  context := some "Contains inappropriate language" }]
      ∧ (∀ p, sendMessageCore s m { o with planner := p } = sendMessageCore s m o))
    ∧ (moderateCount s.agenticDecisions = 0 →
      (sendMessageCore s m o).agenticDecisions
        = s.agenticDecisions
          ++ [{ timestamp := o.nowMs, decision := some "MODERATE",
                reasoning := some "Inappropriate or off-topic response detected",
                context := some "Contains inappropriate language" }]
      ∧ (turnBody s.config s.state s.messages s.agenticDecisions m o).aiResponse
          = warningMessage 1 (lastAssistantQuestion (s.messages
              ++ [{ role := .user, content := m, timestamp := o.nowMs }]))) := by
  have ha := analysis_profanity_cases m hprof
  constructor
  · intro hw
    have hmid := turnBody_terminate s.config s.state s.messages s.agenticDecisions m o ha hw
    refine ⟨?_, ?_, ?_, ?_, ?_⟩
    · exact (finalizeTurn_frozen s.config s.evaluation _ o (Or.inl (by rw [hmid]))).1
    · exact (finalizeTurn_frozen s.config s.evaluation _ o (Or.inl (by rw [hmid]))).2.1
    · exact (finalizeTurn_frozen s.config s.evaluation _ o (Or.inl (by rw [hmid]))).2.2
    · unfold sendMessageCore
      rw [finalizeTurn_log, hmid]
    · intro p
      have hmid2 := turnBody_terminate s.config s.state s.messages s.agenticDecisions m
        { o with planner := p } ha hw
      unfold sendMessageCore
      rw [hmid, hmid2]
      rfl
  · intro hw0
    have hmid := turnBody_warn s.config s.state s.messages s.agenticDecisions m o ha hw0
    constructor
    · unfold sendMessageCore
      rw [finalizeTurn_log, hmid]
    · rw [hmid]

theorem C2_moderation_escalation_witness :
    (sendMessageCore (sessionAt .behavioral 2 [priorModerate]) "damn"
        (moveNextOracle 600000)).state.isActive = false
    ∧ (sendMessageCore (sessionAt .behavioral 2 [priorModerate]) "damn"
        (moveNextOracle 600000)).state.phase = Phase.completed := by
  have h := (C2_moderation_escalation (sessionAt .behavioral 2 [priorModerate]) "damn"
    (moveNextOracle 600000) (Or.inl (by decide))).1 (by decide)
  exact ⟨h.1, h.2.2.1⟩

/-- C3 (amended): on a mock, moderation-passing turn proposing `WRAP_UP`, the
governor honors the proposal exactly when both thresholds hold
(`elapsedMs ≥ 0.8·duration·60000` and `questionsAsked ≥ max 3 ⌈duration/5⌉`);
otherwise the action is demoted — the phase is left unchanged by the governor
and, provided the hard-termination rule does not fire at the end of the turn,
the session remains active with its phase unchanged.  On turn 1 of a
30-minute session the question threshold always fails, so `WRAP_UP` is always
demoted. -/
theorem C3_wrap_up_governor (s : Session) (m : String) (o : TurnOracle) (r c : Option String)
    (hmode : s.config.interviewMode = Mode.mock)
    (hApp : (analyzeResponseApproppriateness m).isAppropriate = true)
    (hProf : (analyzeResponseApproppriateness m).containsProfanity = false)
    (hpl : o.planner = PlannerOutput.wellFormed (some "WRAP_UP") r c) :
    (((turnBody s.config s.state s.messages s.agenticDecisions m o).state.phase = Phase.wrap_up
        ∧ (turnBody s.config s.state s.messages s.agenticDecisions m o).shouldEndSession = true)
      ↔ canWrapUp s.config.durationMinutes (s.state.questionsAsked + 1)
          (elapsedMsAt s.state.startTime o.tGovMs))
    ∧ (¬ canWrapUp s.config.durationMinutes (s.state.questionsAsked + 1)
          (elapsedMsAt s.state.startTime o.tGovMs) →
        (turnBody s.config s.state s.messages s.agenticDecisions m o).state.phase = s.state.phase
        ∧ (turnBody s.config s.state s.messages s.agenticDecisions m o).shouldEndSession = false
        ∧ (shouldEndInterview (turnBody s.config s.state s.messages s.agenticDecisions m o).state
              s.config.durationMinutes o.tEndMs = false →
            (sendMessageCore s m o).state.isActive = s.state.isActive
            ∧ (sendMessageCore s m o).state.phase = s.state.phase))
    ∧ (s.state.questionsAsked = 0 → s.config.durationMinutes = 30 →
        ¬ canWrapUp s.config.durationMinutes (s.state.questionsAsked + 1)
          (elapsedMsAt s.state.startTime o.tGovMs)) := by
  have hW : (makeAgenticDecision o.planner o.nowMs).decision = some "WRAP_UP" := by
    rw [hpl]; rfl
  refine ⟨?_, ?_, ?_⟩
  · by_cases hcan : canWrapUp s.config.durationMinutes (s.state.questionsAsked + 1)
        (elapsedMsAt s.state.startTime o.tGovMs)
    · rw [turnBody_wrap_honored _ _ _ _ _ _ hmode hApp hProf hW hcan]
      simpa using hcan
    · rw [turnBody_wrap_demoted _ _ _ _ _ _ hmode hApp hProf hW hcan]
      simp [hcan]
  · intro hcan
    rw [turnBody_wrap_demoted _ _ _ _ _ _ hmode hApp hProf hW hcan]
    refine ⟨rfl, rfl, ?_⟩
    intro hend
    unfold sendMessageCore
    rw [turnBody_wrap_demoted _ _ _ _ _ _ hmode hApp hProf hW hcan]
    rw [finalizeTurn_skip _ _ _ _ rfl hend]
    exact ⟨rfl, rfl⟩
  · intro h0 hd hcan
    rw [h0, hd] at hcan
    exact absurd hcan.2 (by decide)

/-- C3 counterexample: on turn 1 of a 30-minute session with the user reply
arriving at the 30-minute mark, the `WRAP_UP` proposal is demoted (phase
unchanged, not marked for ending by the governor), yet the session does not
remain active — the hard-termination rule freezes it at the end of the turn. -/
theorem C3_counterexample :
    (sessionAt .warmup 0 []).state.questionsAsked = 0
    ∧ (sessionAt .warmup 0 []).config.durationMinutes = 30
    ∧ (wrapUpOracle 1800000).planner
        = PlannerOutput.wellFormed (some "WRAP_UP") (some "r") (some "c")
    ∧ (turnBody mockConfig30 (stateAt .warmup 0) [baseQuestion] [] "Tell me more please"
        (wrapUpOracle 1800000)).state.phase = Phase.warmup
    ∧ (turnBody mockConfig30 (stateAt .warmup 0) [baseQuestion] [] "Tell me more please"
        (wrapUpOracle 1800000)).shouldEndSession = false
    ∧ (sendMessageCore (sessionAt .warmup 0 []) "Tell me more please"
        (wrapUpOracle 1800000)).state.isActive = false := by
  decide

theorem C3_wrap_up_governor_witness :
    (turnBody mockConfig30 (stateAt .warmup 0) [baseQuestion] [] "Tell me about your role."
        (wrapUpOracle 60000)).state.phase = Phase.warmup
    ∧ (sendMessageCore (sessionAt .warmup 0 []) "Tell me about your role."
        (wrapUpOracle 60000)).state.isActive = true := by
  have h := C3_wrap_up_governor (sessionAt .warmup 0 []) "Tell me about your role."
    (wrapUpOracle 60000) (some "r") (some "c") rfl (by decide) (by decide) rfl
  have h2 := h.2.1 (by decide)
  exact ⟨h2.1, (h2.2.2 (by decide)).1⟩

/-- C4 (amended): `generateModerationResponse` does produce the REDIRECT
response (restating the question, no termination) for a classification that
is off-topic, not profane and not high-severity — but the orchestrator only
calls it when `isAppropriate` is false or profanity is flagged, and the
implemented analyzer marks every off-topic turn as appropriate and not
profane, so such turns skip moderation entirely and proceed to planning (the
planner decision is appended to the log). -/
theorem C4_redirect_gate (a : ContentAnalysis) (wc : ℕ) (q m : String)
    (h1 : a.containsProfanity = false) (h2 : a.severity ≠ Severity.high)
    (h3 : a.isOnTopic = false)
    (h4 : (analyzeResponseApproppriateness m).isOnTopic = false) :
    generateModerationResponse a wc q
        = { message := redirectMessage q, shouldTerminate := false }
    ∧ (analyzeResponseApproppriateness m).isAppropriate = true
    ∧ (analyzeResponseApproppriateness m).containsProfanity = false
    ∧ (∀ (s : Session) (o : TurnOracle),
        s.config.interviewMode = Mode.mock →
        (turnBody s.config s.state s.messages s.agenticDecisions m o).log
          = s.agenticDecisions ++ [makeAgenticDecision o.planner o.nowMs]) := by
  have ha := analysis_offTopic_cases m h4
  refine ⟨?_, ?_, ?_, ?_⟩
  · simp [generateModerationResponse, h1, h2, h3]
  · rw [ha]; rfl
  · rw [ha]; rfl
  · intro s o hmode
    exact turnBody_mock_log s.config s.state s.messages s.agenticDecisions m o hmode
      (by rw [ha]; rfl) (by rw [ha]; rfl)

/-- C4 counterexample: the turn "asdf" is classified off-topic and not
profane, yet the resulting action is not REDIRECT: the moderation branch is
skipped, the planner is called (its decision is appended to the log) and the
assistant message is the generated next question, not a restatement. -/
theorem C4_counterexample :
    (analyzeResponseApproppriateness "asdf").isOnTopic = false
    ∧ (analyzeResponseApproppriateness "asdf").containsProfanity = false
    ∧ (sendMessageCore (sessionAt .warmup 1 []) "asdf" (moveNextOracle 60000)).agenticDecisions
        = [{ timestamp := 60000, decision := some "MOVE_NEXT",
             reasoning := some "r", context := some "c" }]
    ∧ (sendMessageCore (sessionAt .warmup 1 []) "asdf"
        (moveNextOracle 60000)).messages.getLast?.map Msg.content = some "NEXTQ"
    ∧ "NEXTQ" ≠ redirectMessage "Tell me about a project." := by
  decide

theorem C4_redirect_gate_witness :
    generateModerationResponse
        { isAppropriate := true, isOnTopic := false, containsProfanity := false,
          severity := Severity.low, reason := "Response appears to be random characters" }
        0 "Q1"
      = { message := redirectMessage "Q1", shouldTerminate := false }
    ∧ (analyzeResponseApproppriateness "asdf").isAppropriate = true := by
  have h := C4_redirect_gate
    { isAppropriate := true, isOnTopic := false, containsProfanity := false,
      severity := Severity.low, reason := "Response appears to be random characters" }
    0 "Q1" "asdf" rfl (by decide) rfl (by decide)
  exact ⟨h.1, h.2.1⟩

/-- C5 (amended): on a MODERATE (warning) turn, the phase is unchanged and no
planner runs, but `questionsAsked` is incremented by exactly 1 — the
unconditional step-1 increment applies to every turn; provided the
hard-termination rule does not fire at the end of the turn, only the
transcript, the decision log, `questionsAsked` and `lastActivity` change
(phase, activity flag, start/end times, index and evaluation are untouched). -/
theorem C5_moderate_frame (s : Session) (m : String) (o : TurnOracle)
    (hprof : (analyzeResponseApproppriateness m).containsProfanity = true
             ∨ (analyzeResponseApproppriateness m).severity = Severity.high)
    (hw0 : moderateCount s.agenticDecisions = 0)
    (hend : shouldEndInterview
        (turnBody s.config s.state s.messages s.agenticDecisions m o).state
        s.config.durationMinutes o.tEndMs = false) :
    (sendMessageCore s m o).state.phase = s.state.phase
    ∧ (sendMessageCore s m o).state.questionsAsked = s.state.questionsAsked + 1
    ∧ (sendMessageCore s m o).state.isActive = s.state.isActive
    ∧ (sendMessageCore s m o).state.startTime = s.state.startTime
    ∧ (sendMessageCore s m o).state.endTime = s.state.endTime
    ∧ (sendMessageCore s m o).state.currentQuestionIndex = s.state.currentQuestionIndex
    ∧ (sendMessageCore s m o).state.lastActivity = o.nowMs
    ∧ (sendMessageCore s m o).evaluation = s.evaluation
    ∧ (sendMessageCore s m o).agenticDecisions
        = s.agenticDecisions
          ++ [{ timestamp := o.nowMs, decision := some "MODERATE",
                reasoning := some "Inappropriate or off-topic response detected",
                context := some "Contains inappropriate language" }]
    ∧ (sendMessageCore s m o).messages
        = s.messages ++ [{ role := .user, content := m, timestamp := o.nowMs }]
          ++ [{ role := .assistant,
                content := warningMessage 1 (lastAssistantQuestion
                  (s.messages ++ [{ role := .user, content := m, timestamp := o.nowMs }])),
                timestamp := o.nowMs,
                questionType := some s.state.phase,
                isFollowUp := some (s.config.interviewMode == Mode.practice),
                evaluationScore := none }] := by
  have ha := analysis_profanity_cases m hprof
  have hmid := turnBody_warn s.config s.state s.messages s.agenticDecisions m o ha hw0
  unfold sendMessageCore
  rw [hmid] at hend ⊢
  rw [finalizeTurn_skip _ _ _ _ rfl hend]
  exact ⟨rfl, rfl, rfl, rfl, rfl, rfl, rfl, rfl, rfl, rfl⟩

/-- C5 counterexample: a MODERATE (warning) turn does change the
`questionsAsked` counter — it goes from 2 to 3 — contradicting the claim that
it is unchanged at the end of the turn. -/
theorem C5_counterexample :
    (sessionAt .behavioral 2 []).state.questionsAsked = 2
    ∧ (sendMessageCore (sessionAt .behavioral 2 []) "damn"
        (moveNextOracle 600000)).agenticDecisions
        = [{ timestamp := 600000, decision := some "MODERATE",
             reasoning := some "Inappropriate or off-topic response detected",
             context := some "Contains inappropriate language" }]
    ∧ (sendMessageCore (sessionAt .behavioral 2 []) "damn"
        (moveNextOracle 600000)).state.questionsAsked = 3 := by
  decide

theorem C5_moderate_frame_witness :
    (sendMessageCore (sessionAt .behavioral 2 []) "damn"
        (moveNextOracle 600000)).state.phase = Phase.behavioral
    ∧ (sendMessageCore (sessionAt .behavioral 2 []) "damn"
        (moveNextOracle 600000)).state.questionsAsked = 3
    ∧ (sendMessageCore (sessionAt .behavioral 2 []) "damn"
        (moveNextOracle 600000)).state.isActive = true := by
  have h := C5_moderate_frame (sessionAt .behavioral 2 []) "damn" (moveNextOracle 600000)
    (Or.inl (by decide)) (by decide) (by decide)
  exact ⟨h.1, h.2.1, h.2.2.1⟩

/-- C7 (amended): a planner payload on which parsing fails is synthesized as
`{MOVE_NEXT, "Default action due to parsing error",
"Failed to parse AI decision response"}` — the context is that fixed string,
not a truncation of the raw response — and the whole turn behaves exactly as
if the planner had returned that decision; a payload that parses but whose
action is missing or unknown is not synthesized: the decision is logged
verbatim, yet no error is raised and the turn still produces the generated
next-question response with the phase unchanged, as for `MOVE_NEXT`. -/
theorem C7_parse_fallback (s : Session) (m : String) (o : TurnOracle) (raw : String)
    (d r c : Option String)
    (hmode : s.config.interviewMode = Mode.mock)
    (hApp : (analyzeResponseApproppriateness m).isAppropriate = true)
    (hProf : (analyzeResponseApproppriateness m).containsProfanity = false)
    (hW : d ≠ some "WRAP_UP") (hC : d ≠ some "CHANGE_PHASE") :
    makeAgenticDecision (PlannerOutput.malformed raw) o.nowMs
        = { timestamp := o.nowMs, decision := some "MOVE_NEXT",
            reasoning := some "Default action due to parsing error",
            context := some "Failed to parse AI decision response" }
    ∧ sendMessageCore s m { o with planner := PlannerOutput.malformed raw }
        = sendMessageCore s m
            { o with
              planner := PlannerOutput.wellFormed (some "MOVE_NEXT")
                  (some "Default action due to parsing error")
                  (some "Failed to parse AI decision response") }
    ∧ (turnBody s.config s.state s.messages s.agenticDecisions m
          { o with planner := PlannerOutput.wellFormed d r c }).log
        = s.agenticDecisions
          ++ [{ timestamp := o.nowMs, decision := d, reasoning := r, context := c }]
    ∧ (turnBody s.config s.state s.messages s.agenticDecisions m
          { o with planner := PlannerOutput.wellFormed d r c }).aiResponse = o.genText
    ∧ (turnBody s.config s.state s.messages s.agenticDecisions m
          { o with planner := PlannerOutput.wellFormed d r c }).state.phase = s.state.phase
    ∧ (turnBody s.config s.state s.messages s.agenticDecisions m
          { o with planner := PlannerOutput.wellFormed d r c }).shouldEndSession = false := by
  have hmid := turnBody_mock_default s.config s.state s.messages s.agenticDecisions m
    { o with planner := PlannerOutput.wellFormed d r c } hmode hApp hProf hW hC
  refine ⟨rfl, rfl, ?_, ?_, ?_, ?_⟩ <;> (rw [hmid]; try rfl)

/-- C7 counterexample: a well-formed payload with the unknown action `"FOO"`
is not synthesized to `MOVE_NEXT`: the logged decision on that turn is
`"FOO"`. -/
theorem C7_counterexample :
    (sendMessageCore (sessionAt .warmup 1 []) "I designed the caching layer."
        { moveNextOracle 60000 with
          planner := PlannerOutput.wellFormed (some "FOO") (some "rr") (some "cc") }).agenticDecisions
      = [{ timestamp := 60000, decision := some "FOO",
           reasoning := some "rr", context := some "cc" }]
    ∧ (some "FOO" : Option String) ≠ some "MOVE_NEXT" := by
  decide

theorem C7_parse_fallback_witness :
    makeAgenticDecision (PlannerOutput.malformed "not json at all") 60000
        = { timestamp := 60000, decision := some "MOVE_NEXT",
            reasoning := some "Default action due to parsing error",
            context := some "Failed to parse AI decision response" }
    ∧ sendMessageCore (sessionAt .warmup 1 []) "I wrote the tests."
        { moveNextOracle 60000 with planner := PlannerOutput.malformed "not json at all" }
      = sendMessageCore (sessionAt .warmup 1 []) "I wrote the tests."
        { moveNextOracle 60000 with
          planner := PlannerOutput.wellFormed (some "MOVE_NEXT")
              (some "Default action due to parsing error")
              (some "Failed to parse AI decision response") } := by
  have h := C7_parse_fallback (sessionAt .warmup 1 []) "I wrote the tests."
    (moveNextOracle 60000) "not json at all" (some "MOVE_NEXT")
    (some "Default action due to parsing error")
    (some "Failed to parse AI decision response")
    rfl (by decide) (by decide) (by decide) (by decide)
  exact ⟨h.1, h.2.1⟩

/-- C9 (amended): when the hard-termination check fires and the session was
not already marked for ending earlier in the turn (by moderation termination
or an honored WRAP_UP — `shouldEndSession`), the evaluation is generated and
stored (parsed payload or the defined fallback) while the session is frozen;
whenever the stored evaluation changes at all, the turn froze the session
(`phase = completed`, `isActive = false`) through that non-marked path; and a
frozen session rejects any further message, so the evaluation is written at
most once. -/
theorem C9_evaluation_freeze (s : Session) (m : String) (o : TurnOracle) :
    ((turnBody s.config s.state s.messages s.agenticDecisions m o).shouldEndSession = false →
      shouldEndInterview (turnBody s.config s.state s.messages s.agenticDecisions m o).state
          s.config.durationMinutes o.tEndMs = true →
      (sendMessageCore s m o).evaluation
          = some (match o.evalParsed with
                  | some payload => EvaluationVal.parsed payload
                  | none => EvaluationVal.fallbackEval)
        ∧ (sendMessageCore s m o).state.isActive = false
        ∧ (sendMessageCore s m o).state.endTime = some o.nowMs
        ∧ (sendMessageCore s m o).state.phase = Phase.completed)
    ∧ ((sendMessageCore s m o).evaluation ≠ s.evaluation →
        (sendMessageCore s m o).state.phase = Phase.completed
        ∧ (sendMessageCore s m o).state.isActive = false
        ∧ (turnBody s.config s.state s.messages s.agenticDecisions m o).shouldEndSession = false)
    ∧ (s.state.isActive = false → sendMessage s m o = none) := by
  refine ⟨?_, ?_, ?_⟩
  · intro h1 h2
    unfold sendMessageCore finalizeTurn
    simp [h1, h2]
  · intro hne
    unfold sendMessageCore finalizeTurn at hne ⊢
    by_cases hses : (turnBody s.config s.state s.messages s.agenticDecisions m o).shouldEndSession
    · simp [hses] at hne
    · by_cases hend : shouldEndInterview
          (turnBody s.config s.state s.messages s.agenticDecisions m o).state
          s.config.durationMinutes o.tEndMs
      · simp [hses, hend]
      · simp [hses, hend] at hne
  · intro h
    by_cases hm : m = "" <;> simp [sendMessage, hm, h]

/-- C9 counterexample: a turn whose WRAP_UP proposal is honored at the
31-minute mark of a 30-minute session is not terminated by moderation (its
only log entry is the WRAP_UP decision), the hard-termination check fires,
yet `generateEvaluation`'s result is not stored: the session is frozen with
`evaluation` still unset. -/
theorem C9_counterexample :
    (turnBody mockConfig30 (stateAt .warmup 5) [baseQuestion] []
        "Thanks, that is all from me." (wrapUpOracle 1860000)).shouldEndSession = true
    ∧ (turnBody mockConfig30 (stateAt .warmup 5) [baseQuestion] []
        "Thanks, that is all from me." (wrapUpOracle 1860000)).log
        = [{ timestamp := 1860000, decision := some "WRAP_UP",
             reasoning := some "r", context := some "c" }]
    ∧ shouldEndInterview
        (turnBody mockConfig30 (stateAt .warmup 5) [baseQuestion] []
          "Thanks, that is all from me." (wrapUpOracle 1860000)).state 30 1860000 = true
    ∧ (sendMessageCore (sessionAt .warmup 5 []) "Thanks, that is all from me."
        (wrapUpOracle 1860000)).state.phase = Phase.completed
    ∧ (sendMessageCore (sessionAt .warmup 5 []) "Thanks, that is all from me."
        (wrapUpOracle 1860000)).state.isActive = false
    ∧ (sendMessageCore (sessionAt .warmup 5 []) "Thanks, that is all from me."
        (wrapUpOracle 1860000)).evaluation = none := by
  decide

theorem C9_evaluation_freeze_witness :
    (sendMessageCore (sessionAt .behavioral 6 []) "I shipped the feature."
        (moveNextOracle 600000)).evaluation = some (EvaluationVal.parsed "EVAL")
    ∧ (sendMessageCore (sessionAt .behavioral 6 []) "I shipped the feature."
        (moveNextOracle 600000)).state.isActive = false := by
  have h := (C9_evaluation_freeze (sessionAt .behavioral 6 []) "I shipped the feature."
    (moveNextOracle 600000)).1 (by decide) (by decide)
  exact ⟨h.1, h.2.1⟩

end InterviewApp
